import Mathlib

/-!
# Verification of `playlist` (`src/api.py`)

A shallow embedding of the jukebox web API in `src/api.py` and proofs of the
spec's testable properties against it.

Modelling conventions:
* Python `int` is `Int`; Python `//` on ints is `Int.fdiv` (floor division).
* Python dicts returned as HTTP media are Lean structures; a key that may be
  absent is an `Option` field (`none` = key absent).
* The external extraction library (`youtube_dl.extract_info`) is an input to
  the handler: its result dict is passed in, and the handler is a pure
  function of it.  External side-effecting calls the handler makes
  (extraction, download) are recorded in an output list.
* The filesystem cache (`cache/audio/{id}.opus`) is a list of video ids whose
  file exists; `Path.exists` is `List.contains`.
* A Falcon response starts with status 200 and `res.status = falcon.HTTP_400`
  sets it to 400.  An exception the handler does not catch is a distinguished
  outcome constructor.
-/

/-- `MAX_VIDEO_DURATION = 12 * 60` (src/api.py line 38). -/
def MAX_VIDEO_DURATION : Int := 12 * 60

/-- Python `f"{n:02}"`: decimal rendering left-padded with zeros to width 2.
For `n ≥ 0` this is `toString n` when `n ≥ 10` and `"0" ++ toString n`
otherwise; a negative `n` of one digit already has width 2 from the sign. -/
def pyPad2 (n : Int) : String :=
  if 0 ≤ n ∧ n < 10 then "0" ++ toString n else toString n

/-- `s2m` (src/api.py lines 41-44): `minutes = seconds // 60` (floor
division), then `f"{minutes}:{seconds - minutes * 60:02}"`. -/
def s2m (seconds : Int) : String :=
  let minutes := Int.fdiv seconds 60
  toString minutes ++ ":" ++ pyPad2 (seconds - minutes * 60)

/-- The media dict built by `response_for_duration` and reused verbatim as
the enqueue handler's media: `ok`, plus a `reason` key only when rejected. -/
structure DurationResponse where
  ok : Bool
  reason : Option String
deriving Repr, DecidableEq

/-- `response_for_duration` (src/api.py lines 47-58). -/
def response_for_duration (duration : Int) : DurationResponse :=
  if duration > MAX_VIDEO_DURATION then
    { ok := false
      reason := some ("Video is too long at " ++ toString duration ++ "s ("
        ++ s2m duration ++ "). Maximum duration is "
        ++ toString MAX_VIDEO_DURATION ++ "s ("
        ++ s2m MAX_VIDEO_DURATION ++ ").") }
  else
    { ok := true, reason := none }

/-- One entry of the extraction result's `entries` list.  `choice["id"]` and
`choice["duration"]` are read unconditionally by the handlers, so they are
plain fields; the descriptive keys are read with `choice.get(k)` and may be
absent, so they are `Option` fields. -/
structure Entry where
  id : String
  duration : Int
  alt_title : Option String
  artist : Option String
  creator : Option String
  description : Option String
  title : Option String
  track : Option String
  uploader : Option String
  webpage_url : Option String
  viewcount : Option String
deriving Repr, DecidableEq

/-- The `video_info` dict built by `V1Lookup.on_get` (src/api.py lines
88-102): `{k: choice.get(k) for k in (...)}`. -/
structure VideoInfo where
  alt_title : Option String
  artist : Option String
  creator : Option String
  description : Option String
  title : Option String
  track : Option String
  uploader : Option String
  webpage_url : Option String
  viewcount : Option String
  duration : Option Int
deriving Repr, DecidableEq

def mkVideoInfo (choice : Entry) : VideoInfo :=
  { alt_title := choice.alt_title
    artist := choice.artist
    creator := choice.creator
    description := choice.description
    title := choice.title
    track := choice.track
    uploader := choice.uploader
    webpage_url := choice.webpage_url
    viewcount := choice.viewcount
    duration := some choice.duration }

/-- The media dict set by `V1Lookup.on_get`: either the not-found dict
(`ok`, `reason`) or `{**response_for_duration(...), token, video_info}`.
Absent keys are `none`. -/
structure LookupMedia where
  ok : Bool
  reason : Option String
  token : Option String
  video_info : Option VideoInfo
deriving Repr, DecidableEq

structure LookupResponse where
  media : LookupMedia
  status : Nat
deriving Repr, DecidableEq

/-- Outcome of a lookup request.  `V1Lookup.on_get` wraps only the
subscription `info["entries"][0]` in `try/except KeyError`; when the
`entries` key is present but the list is empty, the subscription raises
`IndexError`, which the handler does not catch. -/
inductive LookupOutcome where
  | resp (r : LookupResponse)
  | indexError
deriving Repr, DecidableEq

/-- `V1Lookup.on_get` (src/api.py lines 67-103).  `entries` is the
extraction result's `"entries"` key: `none` when the key is absent
(`KeyError`), otherwise the list of entries. -/
def V1Lookup_on_get (search_term : String) (entries : Option (List Entry)) :
    LookupOutcome :=
  match entries with
  | none =>
      .resp { media := { ok := false
                         reason := some ("Nothing found for search term '"
                           ++ search_term)
                         token := none
                         video_info := none }
              status := 400 }
  | some [] => .indexError
  | some (choice :: _) =>
      let dr := response_for_duration choice.duration
      .resp { media := { ok := dr.ok
                         reason := dr.reason
                         token := some choice.id
                         video_info := some (mkVideoInfo choice) }
              status := 200 }

/-- An external call made by `V1Enqueue.on_get`: the metadata extraction
(`ytdl.extract_info`, line 114) or the download (`ytdl.download`, line 133). -/
inductive ExtCall where
  | extractInfo (url : String)
  | download (url : String)
deriving Repr, DecidableEq

/-- The extraction result consumed by `V1Enqueue.on_get`: it reads
`info["id"]` and `info["duration"]`. -/
structure EnqueueInfo where
  id : String
  duration : Int
deriving Repr, DecidableEq

structure EnqueueResult where
  media : DurationResponse
  status : Nat
  calls : List ExtCall
  cacheAfter : List String
deriving Repr, DecidableEq

/-- `V1Enqueue.on_get` (src/api.py lines 106-137).  `cache` is the set of
ids `i` for which `cache/audio/{i}.opus` exists; `info` is the result of
the initial `extract_info` call.  The download's postprocessor writes the
cache file, so a download adds `info.id` to the cache. -/
def V1Enqueue_on_get (cache : List String) (video_id : String)
    (info : EnqueueInfo) : EnqueueResult :=
  let url := "https://youtu.be/" ++ video_id
  let calls0 := [ExtCall.extractInfo url]
  if cache.contains info.id then
    { media := { ok := true, reason := none }
      status := 200
      calls := calls0
      cacheAfter := cache }
  else
    let duration_response := response_for_duration info.duration
    if duration_response.ok = false then
      { media := duration_response
        status := 400
        calls := calls0
        cacheAfter := cache }
    else
      { media := { ok := true, reason := none }
        status := 200
        calls := calls0 ++ [ExtCall.download ("https://youtu.be/" ++ info.id)]
        cacheAfter := info.id :: cache }

/-!
## Interleaving model of two concurrent enqueue requests

Two request-handling tasks run `V1Enqueue.on_get` for the same video id `v`
(both extraction results resolve to `{id: v, duration: d}`).  The handler
touches the shared filesystem at two points: the existence check
`audio_file_path.exists()` (line 118) and the download (line 133), whose
postprocessor creates `cache/audio/{v}.opus`.  Between them the code runs
only the pure duration check; there is no lock, no in-flight registry, and
no re-check after the existence test.  A task is therefore a two-step
program over the shared cache, and an execution is a schedule (list of
booleans: `true` = task A takes the next step).
-/

inductive EnqPC where
  | start
  | willDownload
  | done
deriving Repr, DecidableEq

structure EnqProc where
  pc : EnqPC
  downloads : Nat
deriving Repr, DecidableEq

/-- One step of a single enqueue task for video id `v` with resolved
duration `d`, given the shared cache; returns the new cache and task state.
At `start` it performs the existence check and, when the file is absent,
the pure duration check (lines 118-127); at `willDownload` it performs the
download, which publishes the cache file (lines 129-137). -/
def enqStep (d : Int) (v : String) (cache : List String) (p : EnqProc) :
    List String × EnqProc :=
  match p.pc with
  | .start =>
      if cache.contains v then
        (cache, { p with pc := .done })
      else if (response_for_duration d).ok = false then
        (cache, { p with pc := .done })
      else
        (cache, { p with pc := .willDownload })
  | .willDownload =>
      (v :: cache, { pc := .done, downloads := p.downloads + 1 })
  | .done => (cache, p)

structure EnqSys where
  cache : List String
  a : EnqProc
  b : EnqProc
deriving Repr, DecidableEq

def enqSysStep (d : Int) (v : String) (s : EnqSys) (pickA : Bool) : EnqSys :=
  if pickA then
    let r := enqStep d v s.cache s.a
    { s with cache := r.1, a := r.2 }
  else
    let r := enqStep d v s.cache s.b
    { s with cache := r.1, b := r.2 }

/-- Run two enqueue tasks for the same id `v` (duration `d`) from an empty
cache under the given schedule. -/
def enqRun (d : Int) (v : String) (sched : List Bool) : EnqSys :=
  sched.foldl (enqSysStep d v)
    { cache := []
      a := { pc := .start, downloads := 0 }
      b := { pc := .start, downloads := 0 } }

def totalDownloads (s : EnqSys) : Nat := s.a.downloads + s.b.downloads

/-- The spec-side rendering of a duration as minutes:seconds, following the
claim's words: `s div 60`, a colon, and `s mod 60` zero-padded to two
digits.  Stated for comparison with the source's `s2m`. -/
def renderMinSec (s : Int) : String :=
  toString (s / 60) ++ ":" ++
    (if s % 60 < 10 then "0" ++ toString (s % 60) else toString (s % 60))

/-- Whether a lookup outcome is an HTTP 400 response (as opposed to a 200
response or an uncaught exception). -/
def respondsHTTP400 (o : LookupOutcome) : Bool :=
  match o with
  | .resp r => r.status == 400
  | .indexError => false

/-- A concrete extraction entry used to instantiate theorems with
hypotheses at an explicit input. -/
def sampleEntry : Entry :=
  { id := "dQw4w9WgXcQ"
    duration := 1200
    alt_title := none
    artist := none
    creator := none
    description := none
    title := some "sample"
    track := none
    uploader := none
    webpage_url := none
    viewcount := none }

/-!
## Shared lemmas
-/

lemma response_ok_of_le {d : Int} (h : d ≤ MAX_VIDEO_DURATION) :
    response_for_duration d = { ok := true, reason := none } := by
  unfold response_for_duration
  rw [if_neg (by omega)]

lemma response_not_ok_of_gt {d : Int} (h : MAX_VIDEO_DURATION < d) :
    (response_for_duration d).ok = false := by
  unfold response_for_duration
  rw [if_pos h]

lemma response_reason_of_gt {d : Int} (h : MAX_VIDEO_DURATION < d) :
    (response_for_duration d).reason =
      some ("Video is too long at " ++ toString d ++ "s (" ++ s2m d
        ++ "). Maximum duration is " ++ toString MAX_VIDEO_DURATION
        ++ "s (" ++ s2m MAX_VIDEO_DURATION ++ ").") := by
  unfold response_for_duration
  rw [if_pos h]

/-- The source's `s2m` agrees with the claim-side minutes:seconds rendering:
`Int.fdiv` by the positive constant 60 is `/`, the subtraction
`seconds - minutes * 60` is `% 60`, and that remainder lies in `[0, 60)`,
where Python's `{:02}` padding is exactly "prepend a zero below ten". -/
lemma s2m_eq_renderMinSec (d : Int) : s2m d = renderMinSec d := by
  simp only [s2m, renderMinSec, pyPad2]
  rw [Int.fdiv_eq_ediv d (by omega)]
  have hrem : d - d / 60 * 60 = d % 60 := by omega
  rw [hrem]
  have h0 : 0 ≤ d % 60 := by omega
  by_cases hlt : d % 60 < 10
  · rw [if_pos ⟨h0, hlt⟩, if_pos hlt]
  · rw [if_neg (by omega), if_neg hlt]

/-!
## Claims
-/

/-- C1 counterexample: two overlapping enqueue requests for the same
uncached id `v` (duration 100s, admissible) can both pass the existence
check before either downloads, and then both invoke the external download —
two download invocations, not exactly one.  The schedule interleaves the
two tasks' existence checks before their downloads. -/
theorem concurrent_enqueue_two_downloads :
    totalDownloads (enqRun 100 "v" [true, false, true, false]) = 2 ∧
    ¬ totalDownloads (enqRun 100 "v" [true, false, true, false]) = 1 := by
  decide

/-- C1 (amended): two serialized enqueue requests for the same uncached id
with admissible duration result in exactly one external download
invocation — the second request's existence check sees the file the first
one published.  Overlapping requests may both download (see the
counterexample): the code has no in-flight de-duplication. -/
theorem serialized_enqueue_one_download (d : Int) (v : String)
    (h : d ≤ MAX_VIDEO_DURATION) :
    totalDownloads (enqRun d v [true, true, false, false]) = 1 := by
  have hok : response_for_duration d = { ok := true, reason := none } :=
    response_ok_of_le h
  simp [enqRun, enqSysStep, enqStep, totalDownloads, hok]

/-- Witness for C1's amended theorem at `d = 100`, `v = "v"`. -/
theorem serialized_enqueue_one_download_witness :
    (100 : Int) ≤ MAX_VIDEO_DURATION ∧
    totalDownloads (enqRun 100 "v" [true, true, false, false]) = 1 :=
  ⟨by decide, serialized_enqueue_one_download 100 "v" (by decide)⟩

/-- C2 counterexample: for a cached video (`"abc"` is in the cache), the
enqueue handler returns `ok = true` without downloading, but it has already
made one external call — `extract_info` runs before the cache check (lines
113-118) — so "zero external calls" is false. -/
theorem cached_enqueue_still_calls_extractor :
    (V1Enqueue_on_get ["abc"] "abc" { id := "abc", duration := 100 }).media.ok
        = true ∧
    (V1Enqueue_on_get ["abc"] "abc" { id := "abc", duration := 100 }).calls
        = [ExtCall.extractInfo "https://youtu.be/abc"] ∧
    ¬ (V1Enqueue_on_get ["abc"] "abc" { id := "abc", duration := 100 }).calls
        = [] := by decide

/-- C2 (amended): for every video whose cache file already exists, enqueue
returns `ok = true` with status 200 immediately and performs no external
download invocation; the single metadata-extraction call still happens, and
the cache is unchanged. -/
theorem cached_enqueue_no_download (cache : List String) (video_id : String)
    (info : EnqueueInfo) (h : cache.contains info.id = true) :
    V1Enqueue_on_get cache video_id info =
      { media := { ok := true, reason := none }
        status := 200
        calls := [ExtCall.extractInfo ("https://youtu.be/" ++ video_id)]
        cacheAfter := cache } := by
  have hm : info.id ∈ cache := by simpa using h
  simp [V1Enqueue_on_get, hm]

/-- Witness for C2's amended theorem: id `"abc"` cached, duration 9999. -/
theorem cached_enqueue_no_download_witness :
    List.contains ["abc"] "abc" = true ∧
    V1Enqueue_on_get ["abc"] "xyz" { id := "abc", duration := 9999 } =
      { media := { ok := true, reason := none }
        status := 200
        calls := [ExtCall.extractInfo ("https://youtu.be/" ++ "xyz")]
        cacheAfter := ["abc"] } :=
  ⟨by decide,
    cached_enqueue_no_download ["abc"] "xyz" { id := "abc", duration := 9999 }
      (by decide)⟩

/-- C3: the duration policy accepts exactly the durations `d ≤ 720` (the
configured maximum, `MAX_VIDEO_DURATION = 12 * 60 = 720`); every `d > 720`
is rejected with `ok = false` and a reason string present. -/
theorem duration_policy_accepts_iff_le_max (d : Int) :
    MAX_VIDEO_DURATION = 720 ∧
    ((response_for_duration d).ok = true ↔ d ≤ 720) ∧
    ((response_for_duration d).ok = false ↔ 720 < d) ∧
    ((response_for_duration d).reason.isSome = true ↔ 720 < d) := by
  refine ⟨by decide, ?_, ?_, ?_⟩ <;>
  · unfold response_for_duration MAX_VIDEO_DURATION
    split <;> simp_all <;> omega

/-- C4: for every duration `d > 720`, the rejection reason contains the
renderings of both `d` and the maximum in minutes:seconds form, where the
rendering of `s` is `s div 60`, a colon, and `s mod 60` zero-padded to two
digits (`renderMinSec`); the source's `s2m` agrees with that rendering. -/
theorem reject_reason_contains_renderings (d : Int) (h : 720 < d) :
    ∃ pre mid post : String,
      (response_for_duration d).reason =
        some (pre ++ renderMinSec d ++ mid ++ renderMinSec 720 ++ post) := by
  refine ⟨"Video is too long at " ++ toString d ++ "s (",
    "). Maximum duration is " ++ toString MAX_VIDEO_DURATION ++ "s (",
    ").", ?_⟩
  rw [response_reason_of_gt (show MAX_VIDEO_DURATION < d by
    unfold MAX_VIDEO_DURATION; omega)]
  rw [s2m_eq_renderMinSec, s2m_eq_renderMinSec]
  have hmx : MAX_VIDEO_DURATION = 720 := by decide
  rw [hmx]
  simp [String.append_assoc]

/-- Witness for C4 at `d = 1200`. -/
theorem reject_reason_contains_renderings_witness :
    (720 : Int) < 1200 ∧
    ∃ pre mid post : String,
      (response_for_duration 1200).reason =
        some (pre ++ renderMinSec 1200 ++ mid ++ renderMinSec 720 ++ post) :=
  ⟨by decide, reject_reason_contains_renderings 1200 (by decide)⟩

/-- C5: enqueue of a not-yet-cached video resolving to duration 1200s
returns `ok = false`, HTTP 400, and exactly the reason string
"Video is too long at 1200s (20:00). Maximum duration is 720s (12:00).";
only the extraction call is made and the cache is unchanged. -/
theorem enqueue_uncached_1200_response :
    V1Enqueue_on_get [] "vid123" { id := "vid123", duration := 1200 } =
      { media := { ok := false
                   reason := some ("Video is too long at 1200s (20:00). "
                     ++ "Maximum duration is 720s (12:00).") }
        status := 400
        calls := [ExtCall.extractInfo "https://youtu.be/vid123"]
        cacheAfter := [] } := by decide

/-- C6 counterexample: at an extraction result whose `entries` key holds an
empty list — a lookup that yields no entries, so no first result exists —
the handler does not return an HTTP 400 response: only `KeyError` is
caught, and `info["entries"][0]` raises `IndexError`, which escapes. -/
theorem lookup_empty_entries_not_400 :
    respondsHTTP400 (V1Lookup_on_get "x" (some [])) = false ∧
    V1Lookup_on_get "x" (some []) = LookupOutcome.indexError := by decide

/-- C6 (amended): when the extraction result has no `entries` key
(`KeyError` path), lookup responds `ok = false`, HTTP 400, with reason
"Nothing found for search term '<term>" (no closing quote, as in the
source); when the `entries` key is present but the list is empty, the
handler instead raises an uncaught `IndexError`. -/
theorem lookup_not_found_behaviour (search_term : String) :
    V1Lookup_on_get search_term none =
      LookupOutcome.resp
        { media := { ok := false
                     reason := some ("Nothing found for search term '"
                       ++ search_term)
                     token := none
                     video_info := none }
          status := 400 } ∧
    V1Lookup_on_get search_term (some []) = LookupOutcome.indexError :=
  ⟨rfl, rfl⟩

/-- C7: a lookup whose first entry's duration exceeds the maximum responds
with `ok = false`, a reason present, and HTTP status 200 (the handler never
sets `res.status` on this path, so Falcon's default 200 stands). -/
theorem lookup_overlong_status_200 (search_term : String) (choice : Entry)
    (rest : List Entry) (h : 720 < choice.duration) :
    ∃ r : LookupResponse,
      V1Lookup_on_get search_term (some (choice :: rest)) =
          LookupOutcome.resp r ∧
        r.media.ok = false ∧
        r.media.reason.isSome = true ∧
        r.status = 200 := by
  refine ⟨_, rfl, ?_, ?_, rfl⟩
  · exact response_not_ok_of_gt (show MAX_VIDEO_DURATION < choice.duration by
      unfold MAX_VIDEO_DURATION; omega)
  · rw [response_reason_of_gt (show MAX_VIDEO_DURATION < choice.duration by
      unfold MAX_VIDEO_DURATION; omega)]
    rfl

/-- Witness for C7 at a concrete entry of duration 1200. -/
theorem lookup_overlong_status_200_witness :
    (720 : Int) < sampleEntry.duration ∧
    ∃ r : LookupResponse,
      V1Lookup_on_get "rick" (some [sampleEntry]) = LookupOutcome.resp r ∧
        r.media.ok = false ∧
        r.media.reason.isSome = true ∧
        r.status = 200 :=
  ⟨by decide, lookup_overlong_status_200 "rick" sampleEntry [] (by decide)⟩

/-- C8: for a video whose cache file exists, enqueue returns `ok = true`
and status 200 even when the resolved duration exceeds the maximum: the
already-cached short-circuit (line 118) runs before the duration policy
check (line 123). -/
theorem cached_enqueue_ignores_duration (cache : List String)
    (video_id : String) (info : EnqueueInfo)
    (hc : cache.contains info.id = true) (hd : 720 < info.duration) :
    (V1Enqueue_on_get cache video_id info).media.ok = true ∧
    (V1Enqueue_on_get cache video_id info).status = 200 := by
  have hm : info.id ∈ cache := by simpa using hc
  simp [V1Enqueue_on_get, hm]

/-- Witness for C8: id `"abc"` cached, duration 1200 > 720, still accepted. -/
theorem cached_enqueue_ignores_duration_witness :
    List.contains ["abc"] "abc" = true ∧ (720 : Int) < 1200 ∧
    (V1Enqueue_on_get ["abc"] "abc" { id := "abc", duration := 1200 }).media.ok
        = true ∧
    (V1Enqueue_on_get ["abc"] "abc" { id := "abc", duration := 1200 }).status
        = 200 :=
  ⟨by decide, by decide,
    cached_enqueue_ignores_duration ["abc"] "abc"
      { id := "abc", duration := 1200 } (by decide) (by decide)⟩

/-- C9: a lookup that finds a first entry always carries `token` (the
entry's id) and the full `video_info` dict in its media, including when the
duration check rejects: rejected lookup responses are not limited to
`{ok, reason}`. -/
theorem lookup_rejected_includes_token_info (search_term : String)
    (choice : Entry) (rest : List Entry) (h : 720 < choice.duration) :
    ∃ r : LookupResponse,
      V1Lookup_on_get search_term (some (choice :: rest)) =
          LookupOutcome.resp r ∧
        r.media.ok = false ∧
        r.media.token = some choice.id ∧
        r.media.video_info = some (mkVideoInfo choice) := by
  refine ⟨_, rfl, ?_, rfl, rfl⟩
  exact response_not_ok_of_gt (show MAX_VIDEO_DURATION < choice.duration by
    unfold MAX_VIDEO_DURATION; omega)

/-- Witness for C9 at a concrete entry of duration 1200. -/
theorem lookup_rejected_includes_token_info_witness :
    (720 : Int) < sampleEntry.duration ∧
    ∃ r : LookupResponse,
      V1Lookup_on_get "rick" (some [sampleEntry]) = LookupOutcome.resp r ∧
        r.media.ok = false ∧
        r.media.token = some sampleEntry.id ∧
        r.media.video_info = some (mkVideoInfo sampleEntry) :=
  ⟨by decide,
    lookup_rejected_includes_token_info "rick" sampleEntry [] (by decide)⟩

/-- C10: an enqueue rejected by the duration policy (uncached id, duration
over the maximum) returns `ok = false` with HTTP 400 having made only the
extraction call — no download invocation — and leaves the cache unchanged. -/
theorem rejected_enqueue_no_download (cache : List String)
    (video_id : String) (info : EnqueueInfo)
    (hc : cache.contains info.id = false) (hd : 720 < info.duration) :
    (V1Enqueue_on_get cache video_id info).media.ok = false ∧
    (V1Enqueue_on_get cache video_id info).status = 400 ∧
    (V1Enqueue_on_get cache video_id info).calls =
      [ExtCall.extractInfo ("https://youtu.be/" ++ video_id)] ∧
    (V1Enqueue_on_get cache video_id info).cacheAfter = cache := by
  have hm : info.id ∉ cache := by simpa using hc
  have hok : (response_for_duration info.duration).ok = false :=
    response_not_ok_of_gt (show MAX_VIDEO_DURATION < info.duration by
      unfold MAX_VIDEO_DURATION; omega)
  simp [V1Enqueue_on_get, hm, hok]

/-- Witness for C10: uncached id `"abc"`, duration 1200. -/
theorem rejected_enqueue_no_download_witness :
    List.contains [] "abc" = false ∧ (720 : Int) < 1200 ∧
    (V1Enqueue_on_get [] "vid" { id := "abc", duration := 1200 }).media.ok
        = false ∧
    (V1Enqueue_on_get [] "vid" { id := "abc", duration := 1200 }).status
        = 400 ∧
    (V1Enqueue_on_get [] "vid" { id := "abc", duration := 1200 }).calls
        = [ExtCall.extractInfo ("https://youtu.be/" ++ "vid")] ∧
    (V1Enqueue_on_get [] "vid" { id := "abc", duration := 1200 }).cacheAfter
        = [] :=
  ⟨by decide, by decide,
    rejected_enqueue_no_download [] "vid" { id := "abc", duration := 1200 }
      (by decide) (by decide)⟩
